import Mathlib

/-!
Verification of the Y Combinator founder-scraper repository
(`src/yc_scraper.py`, with the near-duplicate variant `src/scrapping_test.py`)
against its natural-language specification.

The development shallowly embeds the data model and the pure data
transformations of the scraper: the record shape produced by profile
extraction, the cleaning/deduplication pipeline of `save_live`, the retry loop
of `scrape_profile`, the work-queue computation of `run`, the company-page
backfill merge, the file operations of the checkpoint writers, the scroll
phase of `get_founder_links`, and the sink fan-out of `save_live`.
-/

/-- The record produced for one profile page by `scrape_profile`
(yc_scraper.py line 289: keys name, linkedin, companyName, companyPage,
website, batch, location; every key always present, absence is `""`). -/
structure ProfileRecord where
  name : String := ""
  linkedin : String := ""
  companyName : String := ""
  companyPage : String := ""
  website : String := ""
  batch : String := ""
  location : String := ""
deriving DecidableEq

/-- The deduplication key actually used by `save_live`
(yc_scraper.py line 101: `subset = ['name', 'companyName']`). -/
def recKey (r : ProfileRecord) : String × String := (r.name, r.companyName)

/-- The row filter of `save_live` (yc_scraper.py line 97:
`df = df[df['name'] != '']`). -/
def nonEmptyName (r : ProfileRecord) : Bool := !(decide (r.name = ""))

/-- Keyed first-occurrence deduplication, the semantics of pandas
`drop_duplicates(subset=key, keep='first')`: keeps the first row for each key
value, preserving order. `seen` accumulates the key values already kept. -/
def dedupByKeyAux {α κ : Type} [DecidableEq κ] (key : α → κ) (seen : List κ) :
    List α → List α
  | [] => []
  | x :: xs =>
    if key x ∈ seen then dedupByKeyAux key seen xs
    else x :: dedupByKeyAux key (key x :: seen) xs

/-- Entry point for keyed first-occurrence deduplication. -/
def dedupByKey {α κ : Type} [DecidableEq κ] (key : α → κ) (l : List α) :
    List α :=
  dedupByKeyAux key [] l

/-- Number of elements of `l` whose key is `k`. -/
def countKey {α κ : Type} [DecidableEq κ] (key : α → κ) (k : κ) :
    List α → Nat
  | [] => 0
  | x :: l => (if key x = k then 1 else 0) + countKey key k l

/-- The cleaned snapshot `save_live` computes and publishes
(yc_scraper.py lines 95-107): drop rows with empty `name`, then pandas
`drop_duplicates(subset=['name', 'companyName'], keep='first')`. The result
is written to the checkpoint file, the JSON output, the Excel output and the
Google Sheets sink. Note the in-memory `self.all_data` is not replaced. -/
def saveLiveCleaned (allData : List ProfileRecord) : List ProfileRecord :=
  dedupByKey recKey (allData.filter nonEmptyName)

/-- The cleaning of the variant scraper `scrapping_test.py` `save_live`
(lines 48-53): no name filter, `drop_duplicates(subset=['linkedin'],
keep='first')`. -/
def saveLiveCleanedVariant (records : List ProfileRecord) :
    List ProfileRecord :=
  dedupByKey (fun r => r.linkedin) records

/-- Modelled from the spec (section 3, IdentityKey): primary key is the
professional-network handle (`linkedin`) when present; fallback key is the
ordered pair (person name, organization name) when the handle is absent.
Not present in the source; used to compare the source's behaviour with the
spec's identity notion. -/
def specIdentityKey (r : ProfileRecord) : Sum String (String × String) :=
  if r.linkedin = "" then Sum.inr (r.name, r.companyName) else Sum.inl r.linkedin

/-- Modelled from the spec (section 4.4): per-field merge precedence — an
empty existing field is overwritten by a non-empty new value; a non-empty
existing field is kept. Not present in the source. -/
def mergeField (oldv newv : String) : String := if oldv = "" then newv else oldv

/-- Modelled from the spec (section 4.4): whole-record field-by-field merge of
a new record into an existing one. Not present in the source. -/
def specMerge (oldr newr : ProfileRecord) : ProfileRecord :=
  { name := mergeField oldr.name newr.name
    linkedin := mergeField oldr.linkedin newr.linkedin
    companyName := mergeField oldr.companyName newr.companyName
    companyPage := mergeField oldr.companyPage newr.companyPage
    website := mergeField oldr.website newr.website
    batch := mergeField oldr.batch newr.batch
    location := mergeField oldr.location newr.location }

/-- Modelled from the spec (section 4.4): Identity Store `upsert` — if a
record with the same IdentityKey exists, merge field-by-field into it,
otherwise append. Not present in the source. -/
def specUpsert (store : List ProfileRecord) (r : ProfileRecord) :
    List ProfileRecord :=
  if store.any (fun x => decide (specIdentityKey x = specIdentityKey r)) then
    store.map (fun x =>
      if specIdentityKey x = specIdentityKey r then specMerge x r else x)
  else store ++ [r]

/-- First record of the spec's merge-precedence example
(`{handle: "h1", name: "", org: "Acme"}`). -/
def c1first : ProfileRecord := { linkedin := "h1", name := "", companyName := "Acme" }

/-- Second record of the spec's merge-precedence example
(`{handle: "h1", name: "Jane Doe", org: ""}`). -/
def c1second : ProfileRecord := { linkedin := "h1", name := "Jane Doe", companyName := "" }

/-- The outcome the spec's merge-precedence example demands
(`{handle: "h1", name: "Jane Doe", org: "Acme"}`). -/
def c1specMerged : ProfileRecord :=
  { linkedin := "h1", name := "Jane Doe", companyName := "Acme" }

/-- The scraper's mutable state: `self.all_data` (record list, appended on
each successful extraction) and `self.processed_urls` (the processed-URL set,
modelled as a duplicate-free list). -/
structure ScraperState where
  allData : List ProfileRecord
  processedUrls : List String
deriving DecidableEq

/-- The acceptance test of `scrape_profile` (yc_scraper.py line 301:
`if data['name'] or data['companyName']`). -/
def accepts (r : ProfileRecord) : Bool :=
  !(decide (r.name = "")) || !(decide (r.companyName = ""))

/-- Python `set.add`: insert a URL if not already present. -/
def insertUrl (url : String) (urls : List String) : List String :=
  if url ∈ urls then urls else urls ++ [url]

/-- The success path of `scrape_profile` (yc_scraper.py lines 302-303):
append the record to `all_data` and add the URL to `processed_urls`. -/
def acceptRecord (url : String) (r : ProfileRecord) (st : ScraperState) :
    ScraperState :=
  { allData := st.allData ++ [r], processedUrls := insertUrl url st.processedUrls }

/-- One retry loop of `scrape_profile` (yc_scraper.py lines 228-315).
`results i` is the outcome of navigation + in-page evaluation + company
backfill on attempt `i`: `none` models a raised exception (navigation
timeout, script error, missing `data-page` element), `some r` the extracted
record. `i` is the index of the next attempt, `fuel` the attempts remaining;
the returned `Nat` is the total number of attempts made. An accept returns
immediately; any failure consumes the attempt and continues; when the
attempts are exhausted the failure is logged and the state is unchanged. -/
def scrapeAttemptsGo (url : String) (results : Nat → Option ProfileRecord) :
    Nat → Nat → ScraperState → ScraperState × Nat
  | i, 0, st => (st, i)
  | i, fuel + 1, st =>
    match results i with
    | some r =>
      if accepts r then (acceptRecord url r st, i + 1)
      else scrapeAttemptsGo url results (i + 1) fuel st
    | none => scrapeAttemptsGo url results (i + 1) fuel st

/-- `scrape_profile` (yc_scraper.py lines 224-315): skip URLs already in
`processed_urls` (line 225), otherwise run the bounded retry loop. -/
def scrapeProfile (url : String) (results : Nat → Option ProfileRecord)
    (retries : Nat) (st : ScraperState) : ScraperState × Nat :=
  if url ∈ st.processedUrls then (st, 0)
  else scrapeAttemptsGo url results 0 retries st

/-- Attempt outcomes that `scrape_profile` treats as soft failures: a raised
exception or a record with both `name` and `companyName` empty
(the `raise ValueError("Insufficient data")` branch, line 308). -/
def insufficientResult : Option ProfileRecord → Bool
  | none => true
  | some r => !(accepts r)

/-- Whether one attempt outcome is a record passing the acceptance test of
`scrape_profile` (line 301). -/
def acceptedResult : Option ProfileRecord → Bool
  | some r => accepts r
  | none => false

/-- The per-URL loop of `run` (yc_scraper.py lines 397-398): scrape each
queued URL in order, threading the state; also sums the attempts made. -/
def runUrls (oracle : String → Nat → Option ProfileRecord) (retries : Nat) :
    List String → ScraperState → ScraperState × Nat
  | [], st => (st, 0)
  | u :: us, st =>
    let p := scrapeProfile u (oracle u) retries st
    let q := runUrls oracle retries us p.1
    (q.1, p.2 + q.2)

/-- One discovery+extraction pass of `run` (yc_scraper.py lines 391-398)
over a fixed frontier: `links_to_process = [link for link in unique_links if
link not in self.processed_urls]`, then scrape each remaining URL. -/
def runOnce (oracle : String → Nat → Option ProfileRecord) (retries : Nat)
    (frontier : List String) (st : ScraperState) : ScraperState × Nat :=
  runUrls oracle retries
    (frontier.filter (fun u => !(decide (u ∈ st.processedUrls)))) st

/-- The company-page backfill merge of `scrape_profile` (yc_scraper.py lines
295-298): when a company page URL exists and the website is still empty,
`scrape_company_details` is consulted and its non-empty results are written
into the record — `companyName` unconditionally, `website` as a gap fill.
`cName`/`cWebsite` are the scraped company name and website, with `""`
standing for Python `None` or an empty extraction (both falsy). -/
def backfillMerge (data : ProfileRecord) (cName cWebsite : String) :
    ProfileRecord :=
  if data.companyPage ≠ "" ∧ data.website = "" then
    { data with
        companyName := if cName ≠ "" then cName else data.companyName,
        website := if cWebsite ≠ "" then cWebsite else data.website }
  else data

/-- The rows `save_to_json` writes (yc_scraper.py lines 152-160): the raw
`self.all_data`, with no name filter and no deduplication. -/
def save_to_json_rows (allData : List ProfileRecord) : List ProfileRecord :=
  allData

/-- The payload `save_checkpoint` writes (yc_scraper.py lines 48-56): the raw
`self.all_data` and the processed-URL set, unfiltered. -/
def save_checkpoint_payload (st : ScraperState) :
    List ProfileRecord × List String :=
  (st.allData, st.processedUrls)

/-- The rows `save_to_excel` writes (yc_scraper.py lines 325-330):
deduplicate on `(name, companyName)` first, then drop rows with empty
`name`. -/
def save_to_excel_rows (allData : List ProfileRecord) : List ProfileRecord :=
  (dedupByKey recKey allData).filter nonEmptyName

/-- Primitive file-system operations performed by the checkpoint writers.
`truncate p` models `open(p, 'w')` (which empties the file on open),
`writeStr p s` models writing `s` to the open file, `rename` models
`os.replace`-style atomic renaming (not used by this code). -/
inductive FsOp where
  | truncate (path : String)
  | writeStr (path : String) (content : String)
  | rename (src : String) (dst : String)
deriving DecidableEq

/-- Content of path `p` in a file system modelled as an association list
(first binding wins); an absent file reads as `""`. -/
def fsGet (fs : List (String × String)) (p : String) : String :=
  match fs.find? (fun e => decide (e.1 = p)) with
  | some e => e.2
  | none => ""

/-- Effect of one file-system operation. -/
def applyFsOp (fs : List (String × String)) : FsOp → List (String × String)
  | FsOp.truncate p => (p, "") :: fs
  | FsOp.writeStr p s => (p, fsGet fs p ++ s) :: fs
  | FsOp.rename src dst => (dst, fsGet fs src) :: (src, "") :: fs

/-- Run a sequence of file-system operations. -/
def runFsOps (fs : List (String × String)) (ops : List FsOp) :
    List (String × String) :=
  ops.foldl applyFsOp fs

/-- The operation sequence of `save_checkpoint` (yc_scraper.py lines 50-54)
and equally of the checkpoint/JSON writes inside `save_live` (lines 110-113):
`open(path, 'w')` — which truncates the file in place — followed by
`json.dump` into it. No temporary file and no rename are involved. -/
def saveCheckpointOps (path : String) (content : String) : List FsOp :=
  [FsOp.truncate path, FsOp.writeStr path content]

/-- Whether an operation mutates the given final path directly (rather than
through a rename of a fully written temporary). -/
def touchesDirectly (path : String) : FsOp → Bool
  | FsOp.truncate p => decide (p = path)
  | FsOp.writeStr p _ => decide (p = path)
  | FsOp.rename _ _ => false

/-- The write-temp-then-rename discipline demanded by the spec (section 4.5):
the final path is never truncated or written directly; it may only change via
a rename. -/
def writeTempThenRename (path : String) (ops : List FsOp) : Bool :=
  ops.all (fun op => !(touchesDirectly path op))

/-- Modelled from the spec (external `json` library behaviour, section 6
Checkpoint file): a minimal necessary condition for a checkpoint document to
be loadable — `json.load` of an empty document fails. -/
def jsonLoadable (s : String) : Bool := !(decide (s = ""))

/-- Browser-session actions issued by `get_founder_links`. `measureExtent`
stands for reading the page extent (e.g. `document.body.scrollHeight`);
the source never issues it. -/
inductive PageAction where
  | goto (url : String)
  | sleepSec (seconds : Nat)
  | wheel (dx : Nat) (dy : Nat)
  | evaluateLinks
  | measureExtent
deriving DecidableEq

/-- The site base URL (yc_scraper.py line 13). -/
def baseUrl : String := "https://www.ycombinator.com"

/-- One iteration of the scroll loop of `get_founder_links`
(yc_scraper.py lines 171-173): `page.mouse.wheel(0, 1200)` then
`asyncio.sleep(1)`. -/
def scrollBlock : List PageAction :=
  [PageAction.wheel 0 1200, PageAction.sleepSec 1]

/-- The full action sequence of `get_founder_links` (yc_scraper.py lines
162-186): navigate, settle 5 seconds, then `for _ in range(10)` issue a
fixed wheel scroll and a 1-second pause — unrolled here to its ten
iterations — and finally evaluate the link-collecting script. -/
def getFounderLinksActions (batch : String) : List PageAction :=
  [PageAction.goto (baseUrl ++ "/founders?batches=" ++ batch),
   PageAction.sleepSec 5]
    ++ scrollBlock ++ scrollBlock ++ scrollBlock ++ scrollBlock ++ scrollBlock
    ++ scrollBlock ++ scrollBlock ++ scrollBlock ++ scrollBlock ++ scrollBlock
    ++ [PageAction.evaluateLinks]

/-- Recognizes an extent measurement. -/
def isMeasureAction : PageAction → Bool
  | PageAction.measureExtent => true
  | _ => false

/-- Recognizes a wheel scroll. -/
def isWheelAction : PageAction → Bool
  | PageAction.wheel _ _ => true
  | _ => false

/-- Modelled from the spec (sections 4.1 and 8, scroll termination): measure
the extent, scroll, settle, re-measure; stop as soon as two consecutive
measurements are equal, or once the scroll-attempt ceiling is exhausted.
`extents i` is the value returned by the `i`-th measurement; `i` is the index
of the last measurement taken and `fuel` the scroll attempts remaining; the
result is the total number of measurements taken. Not present in the
source. -/
def specScrollAux (extents : Nat → Nat) : Nat → Nat → Nat
  | i, 0 => i + 1
  | i, fuel + 1 =>
    if extents (i + 1) = extents i then i + 2
    else specScrollAux extents (i + 1) fuel

/-- Modelled from the spec: number of extent measurements the stability-based
scroll loop performs for a given extent sequence and scroll ceiling. -/
def specScrollMeasurements (extents : Nat → Nat) (ceiling : Nat) : Nat :=
  specScrollAux extents 0 ceiling

/-- The fixture extent sequence `[100, 250, 250, ...]` of the spec's
scroll-termination property. -/
def fixtureExtents : Nat → Nat := fun n => if n = 0 then 100 else 250

/-- Outcome of the Excel write attempt inside `save_live` (yc_scraper.py
lines 116-126): success, a `PermissionError` (caught by the inner handler),
or any other exception (not caught there). -/
inductive ExcelOutcome where
  | ok
  | permissionDenied
  | otherError
deriving DecidableEq

/-- Environment of one `save_live` call: whether data is present and which of
its successive steps fail. `gsConfigured`/`spConfigured` model
`self.gs_client`/`self.sp_client` being non-`None`. -/
structure SinkEnv where
  hasData : Bool
  checkpointWriteFails : Bool
  jsonWriteFails : Bool
  excelOutcome : ExcelOutcome
  gsConfigured : Bool
  gsUpdateFails : Bool
  spConfigured : Bool
  spUploadFails : Bool
deriving DecidableEq

/-- Observable outcome of one `save_live` call. -/
structure SaveLiveResult where
  checkpointWritten : Bool
  jsonWritten : Bool
  excelWritten : Bool
  gsDelivered : Bool
  spDelivered : Bool
  raised : Bool
deriving DecidableEq

/-- Control flow of `save_live` (yc_scraper.py lines 88-150). Everything is
inside one outer `try/except Exception` (lines 93, 149), so nothing ever
propagates to the caller. Steps in order: checkpoint write, JSON write, the
Excel write in an inner handler that catches only `PermissionError`
(line 125), the Google Sheets update with no inner handler (lines 129-133),
and the SharePoint upload in an inner catch-all handler (lines 137-147).
A failure with no inner handler jumps to the outer handler, skipping every
later step. -/
def saveLivePublish (env : SinkEnv) : SaveLiveResult :=
  if !env.hasData then
    ⟨false, false, false, false, false, false⟩
  else if env.checkpointWriteFails then
    ⟨false, false, false, false, false, false⟩
  else if env.jsonWriteFails then
    ⟨true, false, false, false, false, false⟩
  else if env.excelOutcome = ExcelOutcome.otherError then
    ⟨true, true, false, false, false, false⟩
  else if env.gsConfigured && env.gsUpdateFails then
    ⟨true, true, decide (env.excelOutcome = ExcelOutcome.ok), false, false, false⟩
  else
    ⟨true, true, decide (env.excelOutcome = ExcelOutcome.ok),
     env.gsConfigured, env.spConfigured && !env.spUploadFails, false⟩

/-- A record with a person name and an organization, used as a generic
successful extraction. -/
def okRec : ProfileRecord := { name := "Jane", companyName := "Acme" }

/-- A record whose person name is empty but whose organization is not — the
`scrape_profile` acceptance test passes it (line 301), yet `save_live` drops
it from the published rows. -/
def companyOnlyRec : ProfileRecord := { companyName := "Acme" }

/-- Two records that share the professional-network handle `h1` but differ in
name and organization. -/
def sameHandleA : ProfileRecord :=
  { name := "A", companyName := "X", linkedin := "h1" }

/-- Second record sharing handle `h1` with `sameHandleA`. -/
def sameHandleB : ProfileRecord :=
  { name := "B", companyName := "Y", linkedin := "h1" }

/-- Two records sharing the `(name, companyName)` key but differing in
website, to exhibit whole-record first-wins deduplication. -/
def firstWinsA : ProfileRecord :=
  { name := "Jane", companyName := "Acme", website := "https://a.example" }

/-- Second record sharing the `(name, companyName)` key with `firstWinsA`. -/
def firstWinsB : ProfileRecord :=
  { name := "Jane", companyName := "Acme", website := "https://b.example" }

/-- A record whose profile-page extraction already populated `companyName`
and found a company page, but no website — the condition that triggers the
company-page backfill. -/
def backfillRec : ProfileRecord :=
  { name := "Jane", companyName := "Acme",
    companyPage := "https://www.ycombinator.com/companies/acme" }

/-- A record every field of which relevant to the backfill is populated,
including the website, so the backfill must be a no-op. -/
def backfillFullRec : ProfileRecord :=
  { name := "Jane", companyName := "Acme", companyPage := "p",
    website := "https://acme.example" }

/-- The checkpoint file name (yc_scraper.py line 17). -/
def checkpointFileName : String := "scraper_progress.json"

/-- Keys already seen never reappear in the keyed deduplication. -/
theorem countKey_dedupByKeyAux_of_mem {α κ : Type} [DecidableEq κ]
    (key : α → κ) (k : κ) :
    ∀ (l : List α) (seen : List κ), k ∈ seen →
      countKey key k (dedupByKeyAux key seen l) = 0 := by
  intro l
  induction l with
  | nil => intro seen hk; rfl
  | cons x xs ih =>
    intro seen hk
    unfold dedupByKeyAux
    split
    · exact ih seen hk
    · rename_i hx
      have hne : ¬ key x = k := fun he => hx (he.symm ▸ hk)
      simp only [countKey, if_neg hne, Nat.zero_add]
      exact ih (key x :: seen) (List.mem_cons_of_mem _ hk)

/-- The keyed deduplication keeps at most one element per key. -/
theorem countKey_dedupByKeyAux_le_one {α κ : Type} [DecidableEq κ]
    (key : α → κ) (k : κ) :
    ∀ (l : List α) (seen : List κ),
      countKey key k (dedupByKeyAux key seen l) ≤ 1 := by
  intro l
  induction l with
  | nil => intro seen; simp [dedupByKeyAux, countKey]
  | cons x xs ih =>
    intro seen
    unfold dedupByKeyAux
    split
    · exact ih seen
    · by_cases hxk : key x = k
      · have h0 : countKey key k (dedupByKeyAux key (key x :: seen) xs) = 0 :=
          countKey_dedupByKeyAux_of_mem key k xs (key x :: seen)
            (hxk ▸ List.mem_cons_self _ _)
      -- the kept head accounts for the single occurrence
        simp [countKey, if_pos hxk, h0]
      · simp only [countKey, if_neg hxk, Nat.zero_add]
        exact ih (key x :: seen)

/-- A key that occurs in the input and was not yet seen occurs exactly once
in the keyed deduplication. -/
theorem countKey_dedupByKeyAux_eq_one {α κ : Type} [DecidableEq κ]
    (key : α → κ) (k : κ) :
    ∀ (l : List α) (seen : List κ), k ∉ seen → (∃ x ∈ l, key x = k) →
      countKey key k (dedupByKeyAux key seen l) = 1 := by
  intro l
  induction l with
  | nil => intro seen hk hex; simp at hex
  | cons x xs ih =>
    intro seen hk hex
    unfold dedupByKeyAux
    split
    · rename_i hmem
      apply ih seen hk
      obtain ⟨y, hy, hyk⟩ := hex
      cases List.mem_cons.mp hy with
      | inl h =>
        exact absurd ((h ▸ hyk : key x = k) ▸ hmem) hk
      | inr h => exact ⟨y, h, hyk⟩
    · rename_i hmem
      by_cases hxk : key x = k
      · have h0 : countKey key k (dedupByKeyAux key (key x :: seen) xs) = 0 :=
          countKey_dedupByKeyAux_of_mem key k xs (key x :: seen)
            (hxk ▸ List.mem_cons_self _ _)
        simp [countKey, if_pos hxk, h0]
      · obtain ⟨y, hy, hyk⟩ := hex
        have hyxs : y ∈ xs := by
          cases List.mem_cons.mp hy with
          | inl h => exact absurd (h ▸ hyk) hxk
          | inr h => exact h
        have hk2 : k ∉ key x :: seen := by
          intro hc
          cases List.mem_cons.mp hc with
          | inl h => exact hxk h.symm
          | inr h => exact hk h
        simp only [countKey, if_neg hxk, Nat.zero_add]
        exact ih (key x :: seen) hk2 ⟨y, hyxs, hyk⟩

/-- Elements of the keyed deduplication come from the input list. -/
theorem mem_of_mem_dedupByKeyAux {α κ : Type} [DecidableEq κ]
    (key : α → κ) :
    ∀ (l : List α) (seen : List κ) (x : α),
      x ∈ dedupByKeyAux key seen l → x ∈ l := by
  intro l
  induction l with
  | nil => intro seen x hx; simp [dedupByKeyAux] at hx
  | cons y ys ih =>
    intro seen x hx
    unfold dedupByKeyAux at hx
    split at hx
    · exact List.mem_cons_of_mem _ (ih seen x hx)
    · cases List.mem_cons.mp hx with
      | inl h => exact h ▸ List.mem_cons_self _ _
      | inr h => exact List.mem_cons_of_mem _ (ih _ x h)

/-- Inserting a URL makes it a member. -/
theorem mem_insertUrl_self (u : String) (urls : List String) :
    u ∈ insertUrl u urls := by
  unfold insertUrl
  split
  · assumption
  · simp

/-- Inserting a URL keeps every existing member. -/
theorem mem_insertUrl_of_mem (u v : String) (urls : List String)
    (h : v ∈ urls) : v ∈ insertUrl u urls := by
  unfold insertUrl
  split
  · exact h
  · exact List.mem_append_left _ h

/-- The retry loop never removes a URL from the processed set. -/
theorem processed_mono_scrapeAttemptsGo (url : String)
    (results : Nat → Option ProfileRecord) :
    ∀ (fuel i : Nat) (st : ScraperState) (u : String),
      u ∈ st.processedUrls →
      u ∈ (scrapeAttemptsGo url results i fuel st).1.processedUrls := by
  intro fuel
  induction fuel with
  | zero => intro i st u hu; simpa [scrapeAttemptsGo] using hu
  | succ n ih =>
    intro i st u hu
    unfold scrapeAttemptsGo
    cases hres : results i with
    | none => exact ih (i + 1) st u hu
    | some r =>
      by_cases ha : accepts r = true
      · simp only [ha, if_true]
        exact mem_insertUrl_of_mem url u _ hu
      · simp only [ha, if_false]
        exact ih (i + 1) st u hu

/-- `scrape_profile` never removes a URL from the processed set. -/
theorem processed_mono_scrapeProfile (url : String)
    (results : Nat → Option ProfileRecord) (retries : Nat)
    (st : ScraperState) (u : String) (hu : u ∈ st.processedUrls) :
    u ∈ (scrapeProfile url results retries st).1.processedUrls := by
  unfold scrapeProfile
  split
  · exact hu
  · exact processed_mono_scrapeAttemptsGo url results retries 0 st u hu

/-- The per-URL loop of `run` never removes a URL from the processed set. -/
theorem processed_mono_runUrls (oracle : String → Nat → Option ProfileRecord)
    (retries : Nat) :
    ∀ (us : List String) (st : ScraperState) (u : String),
      u ∈ st.processedUrls →
      u ∈ (runUrls oracle retries us st).1.processedUrls := by
  intro us
  induction us with
  | nil => intro st u hu; simpa [runUrls] using hu
  | cons v vs ih =>
    intro st u hu
    show u ∈ (runUrls oracle retries vs
      (scrapeProfile v (oracle v) retries st).1).1.processedUrls
    exact ih _ u (processed_mono_scrapeProfile v (oracle v) retries st u hu)

/-- A URL with an accepted attempt inside the remaining-attempt window ends
up in the processed set after the retry loop: the loop either accepts at the
first such attempt or has already accepted earlier. -/
theorem scrapeAttemptsGo_marks_processed (url : String)
    (results : Nat → Option ProfileRecord) :
    ∀ (fuel i : Nat) (st : ScraperState),
      (∃ j, i ≤ j ∧ j < i + fuel ∧ acceptedResult (results j) = true) →
      url ∈ (scrapeAttemptsGo url results i fuel st).1.processedUrls := by
  intro fuel
  induction fuel with
  | zero =>
    intro i st ha
    obtain ⟨j, hj1, hj2, _⟩ := ha
    omega
  | succ n ih =>
    intro i st ha
    unfold scrapeAttemptsGo
    cases hres : results i with
    | none =>
      apply ih (i + 1) st
      obtain ⟨j, hj1, hj2, hj3⟩ := ha
      have hji : j ≠ i := by
        intro he
        rw [he, hres] at hj3
        simp [acceptedResult] at hj3
      exact ⟨j, by omega, by omega, hj3⟩
    | some r =>
      by_cases hacc : accepts r = true
      · simp only [hacc, if_true]
        exact mem_insertUrl_self url st.processedUrls
      · simp only [hacc, if_false]
        apply ih (i + 1) st
        obtain ⟨j, hj1, hj2, hj3⟩ := ha
        have hji : j ≠ i := by
          intro he
          rw [he, hres] at hj3
          simp [acceptedResult] at hj3
          exact hacc hj3
        exact ⟨j, by omega, by omega, hj3⟩

/-- A URL whose extraction yields an accepted record on some attempt within
the retry budget ends up in the processed set after `scrape_profile`. -/
theorem scrapeProfile_marks_processed (url : String)
    (results : Nat → Option ProfileRecord) (retries : Nat)
    (st : ScraperState)
    (ha : ∃ j, j < retries ∧ acceptedResult (results j) = true) :
    url ∈ (scrapeProfile url results retries st).1.processedUrls := by
  by_cases hmem : url ∈ st.processedUrls
  · unfold scrapeProfile
    rw [if_pos hmem]
    exact hmem
  · unfold scrapeProfile
    rw [if_neg hmem]
    apply scrapeAttemptsGo_marks_processed url results retries 0 st
    obtain ⟨j, hj1, hj2⟩ := ha
    exact ⟨j, by omega, by omega, hj2⟩

/-- After the per-URL loop, every queued URL whose extraction succeeds on
some attempt within the retry budget is in the processed set. -/
theorem runUrls_marks_all (oracle : String → Nat → Option ProfileRecord)
    (retries : Nat) :
    ∀ (us : List String) (st : ScraperState),
      (∀ u ∈ us, ∃ j, j < retries ∧ acceptedResult (oracle u j) = true) →
      ∀ u ∈ us, u ∈ (runUrls oracle retries us st).1.processedUrls := by
  intro us
  induction us with
  | nil => intro st hall u hu; simp at hu
  | cons v vs ih =>
    intro st hall u hu
    show u ∈ (runUrls oracle retries vs
      (scrapeProfile v (oracle v) retries st).1).1.processedUrls
    cases List.mem_cons.mp hu with
    | inl h =>
      subst h
      exact processed_mono_runUrls oracle retries vs _ u
        (scrapeProfile_marks_processed u (oracle u) retries st
          (hall u (List.mem_cons_self _ _)))
    | inr h =>
      exact ih _ (fun w hw => hall w (List.mem_cons_of_mem _ hw)) u h

/-- When every attempt for a URL is a soft failure, the retry loop consumes
all remaining attempts and leaves the state unchanged. -/
theorem scrapeAttemptsGo_all_insufficient (url : String)
    (results : Nat → Option ProfileRecord)
    (h : ∀ i, insufficientResult (results i) = true) :
    ∀ (fuel i : Nat) (st : ScraperState),
      scrapeAttemptsGo url results i fuel st = (st, i + fuel) := by
  intro fuel
  induction fuel with
  | zero => intro i st; simp [scrapeAttemptsGo]
  | succ n ih =>
    intro i st
    have hi := h i
    cases hres : results i with
    | none =>
      unfold scrapeAttemptsGo
      rw [hres, ih (i + 1) st]
      simp
      omega
    | some r =>
      have hacc : accepts r = false := by
        simpa [insufficientResult, hres] using hi
      unfold scrapeAttemptsGo
      rw [hres]
      simp only [hacc, if_false]
      rw [ih (i + 1) st]
      simp
      omega

/-- C1 counterexample: inserting the spec's example records
`{handle h1, name "", org Acme}` then `{handle h1, name Jane Doe, org ""}`
does not yield the field-merged record. The spec-modelled upsert produces
`{h1, Jane Doe, Acme}`, but `save_live` first drops the empty-name record and
then whole-record-deduplicates, leaving `{h1, Jane Doe, ""}` — the
organization `Acme` is lost. The variant scraper keeps the first whole record
`{h1, "", Acme}` instead; neither merges field-by-field. -/
theorem c1_counterexample :
    specUpsert (specUpsert [] c1first) c1second = [c1specMerged]
    ∧ saveLiveCleaned [c1first, c1second] = [c1second]
    ∧ saveLiveCleaned [c1first, c1second] ≠ [c1specMerged]
    ∧ saveLiveCleanedVariant [c1first, c1second] = [c1first] := by decide

/-- C1 amended: `save_live` performs whole-record first-wins deduplication on
the pair `(name, companyName)` after dropping records with empty name — no
field-by-field merge. Two records sharing that key end as exactly one record,
the first inserted, kept wholesale; and the spec's example yields exactly one
record, the second inserted, with the organization field empty. -/
theorem c1_amended (r s : ProfileRecord) (hk : recKey s = recKey r)
    (hr : nonEmptyName r = true) (hs : nonEmptyName s = true) :
    saveLiveCleaned [r, s] = [r]
    ∧ saveLiveCleaned [c1first, c1second] = [c1second] := by
  constructor
  · unfold saveLiveCleaned dedupByKey
    simp [hr, hs, dedupByKeyAux, hk]
  · decide

/-- C1 witness: the amended statement at the concrete records `firstWinsA`
and `firstWinsB`, which share `(name, companyName)` but differ in website. -/
theorem c1_amended_witness :
    saveLiveCleaned [firstWinsA, firstWinsB] = [firstWinsA]
    ∧ saveLiveCleaned [c1first, c1second] = [c1second] :=
  c1_amended firstWinsA firstWinsB (by decide) (by decide) (by decide)

/-- C2 counterexample: a URL whose extraction always fails is attempted
exactly `retries` times and produces no record, but contrary to the claim it
is NOT added to the processed set — `scrape_profile` adds a URL to
`processed_urls` only on success (line 303), never in the exhaustion branch
(line 315). -/
theorem c2_counterexample :
    scrapeProfile "u1" (fun _ => none) 2 ⟨[], []⟩ = (⟨[], []⟩, 2)
    ∧ "u1" ∉ (scrapeProfile "u1" (fun _ => none) 2 ⟨[], []⟩).1.processedUrls := by
  decide

/-- C2 amended: for every URL whose extraction yields a soft failure on every
attempt, `scrape_profile` attempts it exactly `retries` times, produces no
record, returns without raising, and afterwards the URL is NOT in the
processed set (it will be re-attempted on the next run). -/
theorem c2_amended (url : String) (results : Nat → Option ProfileRecord)
    (retries : Nat) (st : ScraperState)
    (h1 : ∀ i, insufficientResult (results i) = true)
    (h2 : url ∉ st.processedUrls) :
    scrapeProfile url results retries st = (st, retries)
    ∧ url ∉ (scrapeProfile url results retries st).1.processedUrls := by
  have hmain : scrapeProfile url results retries st = (st, retries) := by
    unfold scrapeProfile
    rw [if_neg h2]
    have hgo := scrapeAttemptsGo_all_insufficient url results h1 retries 0 st
    simpa using hgo
  refine ⟨hmain, ?_⟩
  rw [hmain]
  exact h2

/-- C2 witness: the amended statement at a concrete always-failing URL. -/
theorem c2_amended_witness :
    scrapeProfile "u" (fun _ => none) 2 ⟨[], []⟩ = (⟨[], []⟩, 2)
    ∧ "u" ∉ (scrapeProfile "u" (fun _ => none) 2 ⟨[], []⟩).1.processedUrls :=
  c2_amended "u" (fun _ => none) 2 ⟨[], []⟩ (fun _ => rfl) (by simp)

/-- C4 counterexample: a successful extraction of a record with empty person
name and non-empty organization adds its URL to the processed set and the
record to the store, yet the checkpoint data `save_live` writes contains zero
records with its IdentityKey — the name filter drops it. -/
theorem c4_counterexample :
    (scrapeProfile "u4" (fun _ => some companyOnlyRec) 2 ⟨[], []⟩).1
        = ⟨[companyOnlyRec], ["u4"]⟩
    ∧ countKey specIdentityKey (specIdentityKey companyOnlyRec)
        (saveLiveCleaned [companyOnlyRec]) = 0 := by decide

/-- C4 amended: after every commit, every successfully extracted record with
non-empty person name has exactly one record with its `(name, companyName)`
key in the checkpoint data written by `save_live`; records with empty name
are dropped from the checkpoint data even though their URL is processed. -/
theorem c4_amended (xs : List ProfileRecord) (r : ProfileRecord)
    (hm : r ∈ xs) (hn : nonEmptyName r = true) :
    countKey recKey (recKey r) (saveLiveCleaned xs) = 1 := by
  unfold saveLiveCleaned dedupByKey
  exact countKey_dedupByKeyAux_eq_one recKey (recKey r) _ []
    (by simp) ⟨r, List.mem_filter.mpr ⟨hm, hn⟩, rfl⟩

/-- C4 witness: the amended statement at a concrete one-record store. -/
theorem c4_amended_witness :
    countKey recKey (recKey okRec) (saveLiveCleaned [okRec]) = 1 :=
  c4_amended [okRec] okRec (List.mem_singleton.mpr rfl) (by decide)

/-- C6 counterexample: two distinct records sharing the professional-network
handle `h1` (the spec's primary IdentityKey) both survive `save_live`
cleaning, because the code deduplicates only on `(name, companyName)` and
never on the handle — the published store holds two records with the same
IdentityKey. -/
theorem c6_counterexample :
    specIdentityKey sameHandleA = specIdentityKey sameHandleB
    ∧ sameHandleA ≠ sameHandleB
    ∧ saveLiveCleaned [sameHandleA, sameHandleB]
        = [sameHandleA, sameHandleB] := by decide

/-- C6 amended: the snapshot published by `save_live` never contains two
records with the same `(name, companyName)` pair — the key the code actually
deduplicates on; the professional-network handle plays no role, and records
sharing a handle under different names may coexist. -/
theorem c6_amended (xs : List ProfileRecord) (k : String × String) :
    countKey recKey k (saveLiveCleaned xs) ≤ 1 := by
  unfold saveLiveCleaned dedupByKey
  exact countKey_dedupByKeyAux_le_one recKey k _ []

/-- C3 counterexample: the checkpoint write is not an atomic replace — it
truncates the final file in place and then writes into it, so after the
truncation step (an interruption point) the checkpoint file is empty and
unloadable, with the old content already destroyed. -/
theorem c3_counterexample :
    writeTempThenRename checkpointFileName
        (saveCheckpointOps checkpointFileName "payload") = false
    ∧ fsGet (runFsOps [(checkpointFileName, "old-checkpoint")]
        (List.take 1 (saveCheckpointOps checkpointFileName "payload")))
        checkpointFileName = ""
    ∧ jsonLoadable "" = false := by decide

/-- C3 amended: every checkpoint write (`save_checkpoint` and the checkpoint
write inside `save_live`) opens the final path directly in truncating write
mode with no temporary file and no rename; an interruption between the
truncation and the write leaves an empty, unloadable checkpoint file
(`load_checkpoint` then catches the parse error and restarts empty, losing
all prior state). -/
theorem c3_amended (path content : String) (fs : List (String × String)) :
    writeTempThenRename path (saveCheckpointOps path content) = false
    ∧ fsGet (runFsOps fs (List.take 1 (saveCheckpointOps path content)))
        path = ""
    ∧ jsonLoadable "" = false := by
  refine ⟨?_, ?_, rfl⟩
  · simp [writeTempThenRename, saveCheckpointOps, touchesDirectly]
  · simp [saveCheckpointOps, runFsOps, applyFsOp, fsGet]

/-- C5 counterexample: for the fixture extent sequence `[100, 250, 250]` the
spec's stability-based loop would stop after the third measurement, but
`get_founder_links` performs no extent measurement at all and always issues
exactly ten fixed wheel scrolls — it stops only at the scroll ceiling. -/
theorem c5_counterexample :
    ((getFounderLinksActions "W24").filter isMeasureAction).length = 0
    ∧ ((getFounderLinksActions "W24").filter isWheelAction).length = 10
    ∧ specScrollMeasurements fixtureExtents 10 = 3 := by decide

/-- C5 amended: frontier discovery scrolls unconditionally — for every batch
it issues exactly ten wheel scrolls of the fixed increment 1200 with a fixed
one-second pause after each, never measures the page extent, and has no
early-stop condition. -/
theorem c5_amended (batch : String) :
    ((getFounderLinksActions batch).filter isMeasureAction).length = 0
    ∧ ((getFounderLinksActions batch).filter isWheelAction).length = 10
    ∧ ((getFounderLinksActions batch).filter isWheelAction).all
        (fun a => decide (a = PageAction.wheel 0 1200)) = true := by
  refine ⟨?_, ?_, ?_⟩ <;>
    simp [getFounderLinksActions, scrollBlock, isMeasureAction, isWheelAction]

/-- C7 counterexample: with both remote sinks configured and only the Google
Sheets update failing, the healthy SharePoint sink receives nothing — the
Google Sheets call has no inner handler, so its exception jumps to the outer
handler and skips the SharePoint step. The checkpoint file (written before
any sink) is still written, and nothing is raised. -/
theorem c7_counterexample :
    (saveLivePublish
      ⟨true, false, false, ExcelOutcome.ok, true, true, true, false⟩).spDelivered
        = false
    ∧ (saveLivePublish
      ⟨true, false, false, ExcelOutcome.ok, true, true, true, false⟩).checkpointWritten
        = true
    ∧ (saveLivePublish
      ⟨true, false, false, ExcelOutcome.ok, true, true, true, false⟩).raised
        = false := by decide

/-- C7 amended: `save_live` never raises, and the checkpoint file write
(which precedes every sink) depends only on the data being non-empty and the
write itself succeeding — no sink outcome affects it. But the sinks are not
independent: a sink is reached only if every earlier step short of a
`PermissionError` on Excel succeeded; in particular a Google Sheets failure
(or a non-permission Excel failure) prevents SharePoint delivery. -/
theorem c7_amended (env : SinkEnv) :
    (saveLivePublish env).raised = false
    ∧ (saveLivePublish env).checkpointWritten
        = (env.hasData && !env.checkpointWriteFails)
    ∧ (saveLivePublish env).gsDelivered
        = (env.hasData && !env.checkpointWriteFails && !env.jsonWriteFails
            && !(decide (env.excelOutcome = ExcelOutcome.otherError))
            && env.gsConfigured && !env.gsUpdateFails)
    ∧ (saveLivePublish env).spDelivered
        = (env.hasData && !env.checkpointWriteFails && !env.jsonWriteFails
            && !(decide (env.excelOutcome = ExcelOutcome.otherError))
            && !(env.gsConfigured && env.gsUpdateFails)
            && env.spConfigured && !env.spUploadFails) := by
  obtain ⟨hd, cp, js, ex, gc, gf, sc, sf⟩ := env
  cases hd <;> cases cp <;> cases js <;> cases ex <;> cases gc <;> cases gf
    <;> cases sc <;> cases sf <;> decide

/-- C8 counterexample: over an unchanged one-URL input whose extraction
always fails, the first run makes two attempts and processes nothing, and the
second run again makes two attempts — not zero — because failed URLs are
never added to the processed set. -/
theorem c8_counterexample :
    runOnce (fun _ _ => none) 2 ["u0"] ⟨[], []⟩ = (⟨[], []⟩, 2)
    ∧ (runOnce (fun _ _ => none) 2 ["u0"]
        (runOnce (fun _ _ => none) 2 ["u0"] ⟨[], []⟩).1).2 = 2 := by decide

/-- C8 amended: when every frontier URL's extraction succeeds on some
attempt within the retry budget (the first attempt or a retry), a second run
over the unchanged frontier performs zero extraction attempts and leaves the
state — hence the record set — unchanged: every URL is in the processed set
after the first run and is excluded from the second run's work queue. URLs
whose extraction exhausted every attempt are not in the processed set and
are re-attempted. -/
theorem c8_amended (oracle : String → Nat → Option ProfileRecord)
    (retries : Nat) (frontier : List String) (st : ScraperState)
    (hall : ∀ u ∈ frontier,
      ∃ j, j < retries ∧ acceptedResult (oracle u j) = true) :
    runOnce oracle retries frontier (runOnce oracle retries frontier st).1
      = ((runOnce oracle retries frontier st).1, 0) := by
  have hproc : ∀ u ∈ frontier,
      u ∈ (runOnce oracle retries frontier st).1.processedUrls := by
    intro u hu
    by_cases hmem : u ∈ st.processedUrls
    · exact processed_mono_runUrls oracle retries _ st u hmem
    · exact runUrls_marks_all oracle retries _ st
        (fun w hw => hall w (List.mem_of_mem_filter hw)) u
        (List.mem_filter.mpr ⟨hu, by simp [hmem]⟩)
  have hfilt : frontier.filter
      (fun u =>
        !(decide (u ∈ (runOnce oracle retries frontier st).1.processedUrls)))
      = [] := by
    rw [List.filter_eq_nil_iff]
    intro a ha
    simp [hproc a ha]
  show runUrls oracle retries
      (frontier.filter
        (fun u =>
          !(decide (u ∈ (runOnce oracle retries frontier st).1.processedUrls))))
      (runOnce oracle retries frontier st).1
    = ((runOnce oracle retries frontier st).1, 0)
  rw [hfilt]
  rfl

/-- C8 witness: the amended statement at a concrete one-URL frontier whose
extraction fails on the first attempt and succeeds on the retry — the URL is
still marked processed and the second run makes zero attempts. -/
theorem c8_amended_witness :
    runOnce (fun _ i => if i = 0 then none else some okRec) 2 ["u"]
        (runOnce (fun _ i => if i = 0 then none else some okRec) 2 ["u"]
          ⟨[], []⟩).1
      = ((runOnce (fun _ i => if i = 0 then none else some okRec) 2 ["u"]
          ⟨[], []⟩).1, 0) :=
  c8_amended (fun _ i => if i = 0 then none else some okRec) 2 ["u"] ⟨[], []⟩
    (fun u hu => ⟨1, by decide, rfl⟩)

/-- C9 counterexample: the company-page backfill overwrites a `companyName`
already populated from the profile page — the backfill condition checks only
that the website is empty, and a non-empty scraped company name replaces the
existing one unconditionally. -/
theorem c9_counterexample :
    backfillRec.companyName = "Acme"
    ∧ (backfillMerge backfillRec "Acme Inc" "https://acme.example").companyName
        = "Acme Inc" := by decide

/-- C9 amended: the backfill leaves `name`, `linkedin`, `batch`, `location`
and `companyPage` unchanged, and when the website is already non-empty the
backfill does not run at all (the record is unchanged); but when it does run
it may overwrite an already-populated `companyName` with the company-page
name. -/
theorem c9_amended (data : ProfileRecord) (cName cWebsite : String) :
    (backfillMerge data cName cWebsite).name = data.name
    ∧ (backfillMerge data cName cWebsite).linkedin = data.linkedin
    ∧ (backfillMerge data cName cWebsite).batch = data.batch
    ∧ (backfillMerge data cName cWebsite).location = data.location
    ∧ (backfillMerge data cName cWebsite).companyPage = data.companyPage
    ∧ (data.website ≠ "" → backfillMerge data cName cWebsite = data) := by
  unfold backfillMerge
  split
  · rename_i h
    exact ⟨rfl, rfl, rfl, rfl, rfl, fun hw => absurd h.2 hw⟩
  · exact ⟨rfl, rfl, rfl, rfl, rfl, fun _ => rfl⟩

/-- C9 witness: the amended statement at a record whose website is already
populated — the backfill changes nothing. -/
theorem c9_amended_witness :
    backfillMerge backfillFullRec "NewName" "https://new.example"
      = backfillFullRec :=
  (c9_amended backfillFullRec "NewName" "https://new.example").2.2.2.2.2
    (by decide)

/-- C10 counterexample: a record with empty person name and non-empty
organization is accepted by extraction and excluded from the `save_live`
snapshot, but it DOES appear in published output: the end-of-run
`save_to_json` and `save_checkpoint` (run's `finally` block, lines 405-406)
write the raw in-memory store, empty-name records included. -/
theorem c10_counterexample :
    accepts companyOnlyRec = true
    ∧ companyOnlyRec.name = ""
    ∧ companyOnlyRec ∈ save_to_json_rows [companyOnlyRec]
    ∧ companyOnlyRec ∈ (save_checkpoint_payload ⟨[companyOnlyRec], ["u9"]⟩).1
    ∧ saveLiveCleaned [companyOnlyRec] = [] := by decide

/-- C10 amended: the snapshots written by `save_live` (checkpoint data, JSON,
Excel, sheet sink) and by `save_to_excel` contain only rows with non-empty
person name; but the end-of-run `save_checkpoint` and `save_to_json` write
the raw store unfiltered, so accepted company-only records do appear in the
final checkpoint data and final JSON output. -/
theorem c10_amended (xs : List ProfileRecord) (ps : List String) :
    (saveLiveCleaned xs).all nonEmptyName = true
    ∧ (save_to_excel_rows xs).all nonEmptyName = true
    ∧ save_to_json_rows xs = xs
    ∧ (save_checkpoint_payload ⟨xs, ps⟩).1 = xs := by
  refine ⟨?_, ?_, rfl, rfl⟩
  · rw [List.all_eq_true]
    intro r hr
    have hmem := mem_of_mem_dedupByKeyAux recKey (xs.filter nonEmptyName) [] r hr
    exact (List.mem_filter.mp hmem).2
  · rw [List.all_eq_true]
    intro r hr
    exact (List.mem_filter.mp hr).2
